import Mathlib

/-!
Verification development for the stackrox-installer manifest framework.

The data model (`Config`, `EnvVarConfig`, `Images`, `Resource`) is embedded
from `installer/manifest/config.go` and the old `main.go`
(`VolumeDefAndMount` and its `Apply` method).  The behavioural functions
whose Go bodies are not part of the available sources
(`GetEnvVarsForContainer`, `sortGeneratorsByPriority`, `toGVR`, `New`,
`NamespaceGenerator.Generate`, and the apply/reconcile loop) are modelled
from the specification, as indicated in their doc comments.
-/

namespace StackRoxInstaller

/-! ## Environment variable data model (k8s core/v1 EnvVar, as used by the repo) -/

/-- Structured reference value of an env entry (k8s `EnvVarSource`): either a
field reference into the owning object's metadata or a resource-limit
reference.  The resolver passes these through opaquely. -/
inductive EnvVarSource where
  | fieldRef (fieldPath : String)
  | resourceFieldRef (resource : String)
deriving DecidableEq, Repr

/-- A single environment entry (k8s `v1.EnvVar`): a name bound to a literal
value or to an opaque reference. -/
structure EnvVar where
  name : String
  value : String := ""
  valueFrom : Option EnvVarSource := none
deriving DecidableEq, Repr

/-- Embeds `EnvVarConfig` from `installer/manifest/config.go`: one global
scope plus per-generator (deployment), per-pod and per-container scope maps.
Go maps are embedded as association lists keyed by the scope identifier. -/
structure EnvVarConfig where
  Global : List EnvVar := []
  Generators : List (String × List EnvVar) := []
  Pods : List (String × List EnvVar) := []
  Containers : List (String × List EnvVar) := []
deriving DecidableEq, Repr

/-- Embeds `Images` from `installer/manifest/config.go`. -/
structure Images where
  AdmissionControl : String := ""
  Sensor : String := ""
  Collector : String := ""
  ConfigController : String := ""
  Central : String := ""
  CentralDB : String := ""
  Scanner : String := ""
  ScannerDB : String := ""
  ScannerV4 : String := ""
  ScannerV4DB : String := ""
  VSOCKListener : String := ""
deriving DecidableEq, Repr

/-- Embeds `CRS` from `installer/manifest/config.go`. -/
structure CRS where
  PortForward : Bool := false
deriving DecidableEq, Repr

/-- Embeds `Config` from `installer/manifest/config.go`. -/
structure Config where
  Action : String := ""
  ApplyNetworkPolicies : Bool := false
  Crs : CRS := {}
  CertPath : String := ""
  DevMode : Bool := false
  EnvVars : EnvVarConfig := {}
  Images : Images := {}
  ImageArchitecture : String := ""
  Namespace : String := ""
  ScannerV4 : Bool := false
deriving DecidableEq, Repr

/-- Embeds the image constant `localStackroxImage` of `config.go`. -/
def localStackroxImage : String := "localhost:5001/stackrox/stackrox:latest"

/-- Embeds the image constant `localDbImage` of `config.go`. -/
def localDbImage : String := "localhost:5001/stackrox/db:latest"

/-- Embeds `DefaultConfig` from `installer/manifest/config.go`. -/
def DefaultConfig : Config :=
  { Namespace := "stackrox"
    ScannerV4 := false
    DevMode := false
    ApplyNetworkPolicies := false
    CertPath := "./certs"
    ImageArchitecture := "single"
    EnvVars := {}
    Images :=
      { AdmissionControl := localStackroxImage
        Sensor := localStackroxImage
        Collector := localStackroxImage
        ConfigController := localStackroxImage
        Central := localStackroxImage
        Scanner := localStackroxImage
        ScannerV4 := localStackroxImage
        VSOCKListener := localStackroxImage
        CentralDB := localDbImage
        ScannerDB := localDbImage
        ScannerV4DB := localDbImage } }

/-! ## Environment override resolver

Modelled from the spec: the Go body of `GetEnvVarsForContainer` and its
helper `isValidEnvVarName` are not among the available sources (only their
tests and the `EnvVarConfig` declaration are), so the resolver below follows
the specification's precedence law (global scope, then the deployment,
pod and container scopes matching the given identifiers, then the
caller-supplied existing entries, later tiers overwriting earlier ones by
name, last-applied-wins inside a tier) and its filtering rule (entries from
configuration whose name matches a protected prefix or exact protected name
are dropped; existing entries are never filtered). -/

/-- Modelled from the spec: exact protected names — standard process
environment names such as the search path. -/
def protectedExactNames : List String := ["PATH", "HOME", "USER"]

/-- Checks that the second character list begins with the first (embeds Go's
`strings.HasPrefix` over the characters, kept executable by the kernel). -/
def startsWithChars : List Char → List Char → Bool
  | [], _ => true
  | _ :: _, [] => false
  | p :: ps, c :: cs => p == c && startsWithChars ps cs

/-- String-level front-match helper over `String.data`. -/
def strStartsWith (s pat : String) : Bool :=
  startsWithChars pat.data s.data

/-- Modelled from the spec: `isValidEnvVarName` returns false exactly for
protected names: the StackRox system namespace (`ROX_` names), the
orchestrator-injected service-discovery names (`KUBERNETES_` names) and the
exact protected process-environment names. -/
def isValidEnvVarName (n : String) : Bool :=
  !(strStartsWith n "ROX_" || strStartsWith n "KUBERNETES_" || protectedExactNames.contains n)

/-- Drops configuration-sourced entries with protected names. -/
def filterEnv (l : List EnvVar) : List EnvVar :=
  l.filter (fun e => isValidEnvVarName e.name)

/-- Inserts one entry into the accumulated result: an entry with the same
name is overwritten in place, otherwise the entry is appended. -/
def upsertEnvVar (e : EnvVar) : List EnvVar → List EnvVar
  | [] => [e]
  | x :: xs => if x.name = e.name then e :: xs else x :: upsertEnvVar e xs

/-- Merges one precedence tier into the accumulated result, entry by entry
(so inside a tier a later duplicate overwrites an earlier one). -/
def mergeEnvVars (acc : List EnvVar) (tier : List EnvVar) : List EnvVar :=
  tier.foldl (fun a e => upsertEnvVar e a) acc

/-- Looks a scope identifier up in a scope map; an unknown identifier
contributes no entries. -/
def lookupScope (m : List (String × List EnvVar)) (k : String) : List EnvVar :=
  match m.find? (fun q => q.1 = k) with
  | some q => q.2
  | none => []

/-- Modelled from the spec: `GetEnvVarsForContainer` resolves the final env
entry list for one container by folding the four configuration tiers (each
protected-filtered) and finally the caller's existing entries (unfiltered)
into an accumulated list, by name. -/
def GetEnvVarsForContainer (cfg : Config) (deploymentId podId containerId : String)
    (existingEnvVars : List EnvVar) : List EnvVar :=
  let acc0 := mergeEnvVars [] (filterEnv cfg.EnvVars.Global)
  let acc1 := mergeEnvVars acc0 (filterEnv (lookupScope cfg.EnvVars.Generators deploymentId))
  let acc2 := mergeEnvVars acc1 (filterEnv (lookupScope cfg.EnvVars.Pods podId))
  let acc3 := mergeEnvVars acc2 (filterEnv (lookupScope cfg.EnvVars.Containers containerId))
  mergeEnvVars acc3 existingEnvVars

/-- First entry with the given name in a resolved list. -/
def lookupEnv (l : List EnvVar) (n : String) : Option EnvVar :=
  l.find? (fun e => e.name = n)

/-- Last entry with the given name in a tier (the one that wins inside that
tier under last-applied-wins). -/
def lastEntry (l : List EnvVar) (n : String) : Option EnvVar :=
  l.foldl (fun acc e => if e.name = n then some e else acc) none

example :
    GetEnvVarsForContainer
      { EnvVars :=
          { Global := [{ name := "GLOBAL_VAR", value := "global-value" }]
            Generators := [("other_generator", [{ name := "OTHER_VAR", value := "other-value" }])] } }
      "nonexistent" "nonexistent" "nonexistent"
      [{ name := "EXISTING_VAR", value := "existing-value" }] =
      [{ name := "GLOBAL_VAR", value := "global-value" },
       { name := "EXISTING_VAR", value := "existing-value" }] := by
  decide

/-! ## Resolver lemmas -/

theorem lookupEnv_nil (n : String) : lookupEnv [] n = none := rfl

theorem lookupEnv_upsert (acc : List EnvVar) (e : EnvVar) (n : String) :
    lookupEnv (upsertEnvVar e acc) n = if e.name = n then some e else lookupEnv acc n := by
  induction acc with
  | nil =>
    by_cases hn : e.name = n <;> simp [upsertEnvVar, lookupEnv, List.find?, hn]
  | cons x xs ih =>
    by_cases hx : x.name = e.name
    · by_cases hn : e.name = n
      · simp [upsertEnvVar, hx, hn, lookupEnv, List.find?]
      · have hxn : ¬ x.name = n := fun h => hn (hx ▸ h)
        have hn' : ¬ n = e.name := fun h => hn h.symm
        simp [upsertEnvVar, hx, hn, hn', hxn, lookupEnv, List.find?]
    · have hx' : ¬ x.name = e.name := hx
      by_cases hxn : x.name = n
      · have hn : ¬ e.name = n := fun h => hx (h ▸ hxn)
        have hn' : ¬ n = e.name := fun h => hn h.symm
        simp [upsertEnvVar, hx', hxn, hn, hn', lookupEnv, List.find?]
      · by_cases hn : e.name = n
        · simp only [upsertEnvVar, if_neg hx']
          simp [lookupEnv, List.find?, hxn, hn] at ih ⊢
          exact ih
        · simp only [upsertEnvVar, if_neg hx']
          simp [lookupEnv, List.find?, hxn, hn] at ih ⊢
          exact ih

theorem lastEntry_nil (n : String) : lastEntry [] n = none := rfl

theorem lastEntry_foldl_init (l : List EnvVar) (n : String) (i : Option EnvVar) :
    l.foldl (fun acc e => if e.name = n then some e else acc) i =
      (lastEntry l n).or i := by
  induction l generalizing i with
  | nil => simp [lastEntry]
  | cons x xs ih =>
    show xs.foldl _ (if x.name = n then some x else i) = _
    rw [ih]
    have hx : lastEntry (x :: xs) n =
        xs.foldl (fun acc e => if e.name = n then some e else acc)
          (if x.name = n then some x else none) := rfl
    rw [hx, ih, Option.or_assoc]
    by_cases hxn : x.name = n <;> simp [hxn]

theorem lastEntry_cons (x : EnvVar) (xs : List EnvVar) (n : String) :
    lastEntry (x :: xs) n =
      (lastEntry xs n).or (if x.name = n then some x else none) := by
  show xs.foldl _ (if x.name = n then some x else none) = _
  rw [lastEntry_foldl_init]

theorem lookupEnv_mergeEnvVars (tier acc : List EnvVar) (n : String) :
    lookupEnv (mergeEnvVars acc tier) n = (lastEntry tier n).or (lookupEnv acc n) := by
  induction tier generalizing acc with
  | nil => simp [mergeEnvVars, lastEntry]
  | cons t ts ih =>
    show lookupEnv (mergeEnvVars (upsertEnvVar t acc) ts) n = _
    rw [ih, lastEntry_cons, lookupEnv_upsert, Option.or_assoc]
    by_cases htn : t.name = n <;> simp [htn]

theorem lastEntry_filterEnv (l : List EnvVar) (n : String) :
    lastEntry (filterEnv l) n = if isValidEnvVarName n then lastEntry l n else none := by
  induction l with
  | nil => simp [filterEnv, lastEntry]
  | cons x xs ih =>
    by_cases hv : isValidEnvVarName x.name
    · have hstep : filterEnv (x :: xs) = x :: filterEnv xs := by
        simp [filterEnv, List.filter_cons, hv]
      rw [hstep, lastEntry_cons, lastEntry_cons, ih]
      by_cases hn : isValidEnvVarName n
      · simp only [if_pos hn]
      · have hxn : ¬ x.name = n := fun h => hn (h ▸ hv)
        simp [if_neg hn, if_neg hxn]
    · have hstep : filterEnv (x :: xs) = filterEnv xs := by
        simp [filterEnv, List.filter_cons, hv]
      rw [hstep, ih, lastEntry_cons]
      by_cases hn : isValidEnvVarName n
      · have hxn : ¬ x.name = n := fun h => hv (h ▸ hn)
        simp [if_pos hn, if_neg hxn]
      · simp only [if_neg hn]

/-- Full characterization of the resolver output, looked up by name: the
existing tier wins; protected names otherwise resolve to nothing; and the
configuration tiers apply in container, pod, deployment, global order. -/
theorem lookupEnv_resolver (cfg : Config) (d p c : String) (ex : List EnvVar) (n : String) :
    lookupEnv (GetEnvVarsForContainer cfg d p c ex) n =
      (lastEntry ex n).or
        (if isValidEnvVarName n then
          ((lastEntry (lookupScope cfg.EnvVars.Containers c) n).or
            ((lastEntry (lookupScope cfg.EnvVars.Pods p) n).or
              ((lastEntry (lookupScope cfg.EnvVars.Generators d) n).or
                (lastEntry cfg.EnvVars.Global n))))
        else none) := by
  show lookupEnv (mergeEnvVars (mergeEnvVars (mergeEnvVars (mergeEnvVars
      (mergeEnvVars [] (filterEnv cfg.EnvVars.Global))
      (filterEnv (lookupScope cfg.EnvVars.Generators d)))
      (filterEnv (lookupScope cfg.EnvVars.Pods p)))
      (filterEnv (lookupScope cfg.EnvVars.Containers c))) ex) n = _
  rw [lookupEnv_mergeEnvVars, lookupEnv_mergeEnvVars, lookupEnv_mergeEnvVars,
    lookupEnv_mergeEnvVars, lookupEnv_mergeEnvVars,
    lastEntry_filterEnv, lastEntry_filterEnv, lastEntry_filterEnv, lastEntry_filterEnv]
  by_cases hn : isValidEnvVarName n
  · simp [hn, lookupEnv_nil, Option.or_assoc]
  · simp [hn, lookupEnv_nil]

theorem mergeEnvVars_nil (acc : List EnvVar) : mergeEnvVars acc [] = acc := rfl

theorem mem_names_upsert (e : EnvVar) (l : List EnvVar) (m : String) :
    m ∈ (upsertEnvVar e l).map EnvVar.name ↔ m = e.name ∨ m ∈ l.map EnvVar.name := by
  induction l with
  | nil => simp [upsertEnvVar]
  | cons x xs ih =>
    by_cases hx : x.name = e.name
    · have hstep : upsertEnvVar e (x :: xs) = e :: xs := by simp [upsertEnvVar, hx]
      rw [hstep]
      simp only [List.map_cons, List.mem_cons, hx]
      tauto
    · have hstep : upsertEnvVar e (x :: xs) = x :: upsertEnvVar e xs := by
        simp [upsertEnvVar, hx]
      rw [hstep]
      simp only [List.map_cons, List.mem_cons, ih]
      tauto

theorem nodup_names_upsert (e : EnvVar) (l : List EnvVar)
    (h : (l.map EnvVar.name).Nodup) : ((upsertEnvVar e l).map EnvVar.name).Nodup := by
  induction l with
  | nil => simp [upsertEnvVar]
  | cons x xs ih =>
    rw [List.map_cons, List.nodup_cons] at h
    by_cases hx : x.name = e.name
    · have hstep : upsertEnvVar e (x :: xs) = e :: xs := by simp [upsertEnvVar, hx]
      rw [hstep]
      simp only [List.map_cons, List.nodup_cons]
      exact ⟨hx ▸ h.1, h.2⟩
    · have hstep : upsertEnvVar e (x :: xs) = x :: upsertEnvVar e xs := by
        simp [upsertEnvVar, hx]
      rw [hstep]
      simp only [List.map_cons, List.nodup_cons]
      refine ⟨fun hmem => ?_, ih h.2⟩
      rcases (mem_names_upsert e xs x.name).mp hmem with h1 | h1
      · exact hx h1
      · exact h.1 h1

theorem nodup_names_mergeEnvVars (tier acc : List EnvVar)
    (h : (acc.map EnvVar.name).Nodup) : ((mergeEnvVars acc tier).map EnvVar.name).Nodup := by
  induction tier generalizing acc with
  | nil => exact h
  | cons t ts ih => exact ih (upsertEnvVar t acc) (nodup_names_upsert t acc h)

/-! ## Claim C8 -/

/-- C8: for every configuration, identifiers and existing-entries list, the
resolved list contains no two entries with the same name. -/
theorem resolvedNamesUnique (cfg : Config) (d p c : String) (ex : List EnvVar) :
    ((GetEnvVarsForContainer cfg d p c ex).map EnvVar.name).Nodup := by
  show ((mergeEnvVars (mergeEnvVars (mergeEnvVars (mergeEnvVars
      (mergeEnvVars [] (filterEnv cfg.EnvVars.Global))
      (filterEnv (lookupScope cfg.EnvVars.Generators d)))
      (filterEnv (lookupScope cfg.EnvVars.Pods p)))
      (filterEnv (lookupScope cfg.EnvVars.Containers c))) ex).map EnvVar.name).Nodup
  refine nodup_names_mergeEnvVars _ _ (nodup_names_mergeEnvVars _ _
    (nodup_names_mergeEnvVars _ _ (nodup_names_mergeEnvVars _ _
      (nodup_names_mergeEnvVars _ _ ?_))))
  simp

/-! ## Claim C3 -/

/-- C3: a protected name resolves exactly to what the existing entries say
(so it is absent whenever the existing entries do not supply it, no matter
which configuration tier supplied it), and an entry supplied through the
existing entries is never filtered: its last occurrence always wins. -/
theorem protectedFiltering (cfg : Config) (d p c : String) (ex : List EnvVar) (n : String) :
    (isValidEnvVarName n = false →
      lookupEnv (GetEnvVarsForContainer cfg d p c ex) n = lastEntry ex n) ∧
    (∀ e, lastEntry ex n = some e →
      lookupEnv (GetEnvVarsForContainer cfg d p c ex) n = some e) := by
  constructor
  · intro h
    rw [lookupEnv_resolver, h]
    simp
  · intro e he
    rw [lookupEnv_resolver, he]
    simp

/-- Concrete configuration of the protected-variable test: three protected
entries and one ordinary entry in the global tier. -/
def protectedTestConfig : Config :=
  { EnvVars :=
      { Global :=
          [{ name := "ROX_PROTECTED", value := "should-be-blocked" },
           { name := "KUBERNETES_SERVICE_HOST", value := "should-be-blocked" },
           { name := "PATH", value := "should-be-blocked" },
           { name := "CUSTOM_VAR", value := "should-be-allowed" }] } }

/-- Witness for C3 at the protected-variable test's configuration: the three
protected names are absent from the resolved output, and an existing
`ROX_`-named entry is preserved. -/
theorem protectedFiltering_witness :
    lookupEnv (GetEnvVarsForContainer protectedTestConfig "test" "test" "test" [])
        "ROX_PROTECTED" = none ∧
    lookupEnv (GetEnvVarsForContainer protectedTestConfig "test" "test" "test" [])
        "KUBERNETES_SERVICE_HOST" = none ∧
    lookupEnv (GetEnvVarsForContainer protectedTestConfig "test" "test" "test" [])
        "PATH" = none ∧
    lookupEnv (GetEnvVarsForContainer protectedTestConfig "test" "test" "test"
        [{ name := "ROX_HOTRELOAD", value := "true" }]) "ROX_HOTRELOAD" =
      some { name := "ROX_HOTRELOAD", value := "true" } :=
  ⟨((protectedFiltering protectedTestConfig "test" "test" "test" [] "ROX_PROTECTED").1
      (by decide)).trans rfl,
   ((protectedFiltering protectedTestConfig "test" "test" "test" [] "KUBERNETES_SERVICE_HOST").1
      (by decide)).trans rfl,
   ((protectedFiltering protectedTestConfig "test" "test" "test" [] "PATH").1
      (by decide)).trans rfl,
   (protectedFiltering protectedTestConfig "test" "test" "test"
      [{ name := "ROX_HOTRELOAD", value := "true" }] "ROX_HOTRELOAD").2
      { name := "ROX_HOTRELOAD", value := "true" } (by decide)⟩

/-! ## Claim C4 -/

/-- C4: resolving against deployment, pod and container identifiers that
have no entries in the configuration's scope maps returns exactly the global
tier merged with the existing entries — no error and no entries from other
scopes. -/
theorem nonexistentScopes (cfg : Config) (d p c : String) (ex : List EnvVar)
    (hd : cfg.EnvVars.Generators.find? (fun q => q.1 = d) = none)
    (hp : cfg.EnvVars.Pods.find? (fun q => q.1 = p) = none)
    (hc : cfg.EnvVars.Containers.find? (fun q => q.1 = c) = none) :
    GetEnvVarsForContainer cfg d p c ex =
      mergeEnvVars (mergeEnvVars [] (filterEnv cfg.EnvVars.Global)) ex := by
  show mergeEnvVars (mergeEnvVars (mergeEnvVars (mergeEnvVars
      (mergeEnvVars [] (filterEnv cfg.EnvVars.Global))
      (filterEnv (lookupScope cfg.EnvVars.Generators d)))
      (filterEnv (lookupScope cfg.EnvVars.Pods p)))
      (filterEnv (lookupScope cfg.EnvVars.Containers c))) ex = _
  rw [show lookupScope cfg.EnvVars.Generators d = [] by rw [lookupScope, hd],
    show lookupScope cfg.EnvVars.Pods p = [] by rw [lookupScope, hp],
    show lookupScope cfg.EnvVars.Containers c = [] by rw [lookupScope, hc]]
  rfl

/-- Concrete configuration of the non-existent-scope test: a global entry
plus entries attached to other, unrelated scope identifiers. -/
def nonexistentScopesConfig : Config :=
  { EnvVars :=
      { Global := [{ name := "GLOBAL_VAR", value := "global-value" }]
        Generators := [("other_generator", [{ name := "OTHER_VAR", value := "other-value" }])]
        Pods := [("other_pod", [{ name := "OTHER_POD_VAR", value := "other-pod-value" }])]
        Containers := [("other_container",
          [{ name := "OTHER_CONTAINER_VAR", value := "other-container-value" }])] } }

/-- Witness for C4 at the non-existent-scope test's configuration: only the
global and existing entries appear. -/
theorem nonexistentScopes_witness :
    GetEnvVarsForContainer nonexistentScopesConfig
        "nonexistent_generator" "nonexistent_pod" "nonexistent_container"
        [{ name := "EXISTING_VAR", value := "existing-value" }] =
      [{ name := "GLOBAL_VAR", value := "global-value" },
       { name := "EXISTING_VAR", value := "existing-value" }] :=
  (nonexistentScopes nonexistentScopesConfig
      "nonexistent_generator" "nonexistent_pod" "nonexistent_container"
      [{ name := "EXISTING_VAR", value := "existing-value" }]
      (by decide) (by decide) (by decide)).trans (by decide)

/-! ## Claim C1 -/

/-- C1 (amended): for a name the existing entries define, the resolver binds
it to the existing-entries value; for a name the existing entries do not
define and that does not match the protected set, the resolver falls back to
the container tier, then (with the pod scope empty for that name) to the
deployment tier, then to the global tier. -/
theorem envResolutionPrecedence (cfg : Config) (d p c : String) (ex : List EnvVar)
    (n : String) :
    (∀ ee, lastEntry ex n = some ee →
      lookupEnv (GetEnvVarsForContainer cfg d p c ex) n = some ee) ∧
    (∀ ec, isValidEnvVarName n = true →
      lastEntry ex n = none →
      lastEntry (lookupScope cfg.EnvVars.Containers c) n = some ec →
      lookupEnv (GetEnvVarsForContainer cfg d p c ex) n = some ec) ∧
    (∀ ed, isValidEnvVarName n = true →
      lastEntry ex n = none →
      lastEntry (lookupScope cfg.EnvVars.Containers c) n = none →
      lastEntry (lookupScope cfg.EnvVars.Pods p) n = none →
      lastEntry (lookupScope cfg.EnvVars.Generators d) n = some ed →
      lookupEnv (GetEnvVarsForContainer cfg d p c ex) n = some ed) ∧
    (∀ eg, isValidEnvVarName n = true →
      lastEntry ex n = none →
      lastEntry (lookupScope cfg.EnvVars.Containers c) n = none →
      lastEntry (lookupScope cfg.EnvVars.Pods p) n = none →
      lastEntry (lookupScope cfg.EnvVars.Generators d) n = none →
      lastEntry cfg.EnvVars.Global n = some eg →
      lookupEnv (GetEnvVarsForContainer cfg d p c ex) n = some eg) := by
  refine ⟨fun ee he => ?_, fun ec hv he hc => ?_, fun ed hv he hc hp hd => ?_,
    fun eg hv he hc hp hd hg => ?_⟩
  · rw [lookupEnv_resolver, he]
    simp
  · rw [lookupEnv_resolver, he, hc]
    simp [hv]
  · rw [lookupEnv_resolver, he, hc, hp, hd]
    simp [hv]
  · rw [lookupEnv_resolver, he, hc, hp, hd, hg]
    simp [hv]

/-- Configuration with the name `LOG_LEVEL` defined in the global,
deployment and container tiers (and not in the pod tier). -/
def precedenceConfig : Config :=
  { EnvVars :=
      { Global := [{ name := "LOG_LEVEL", value := "global" }]
        Generators := [("d", [{ name := "LOG_LEVEL", value := "deployment" }])]
        Pods := [("p", [{ name := "POD_MEMORY_LIMIT", value := "8Gi" }])]
        Containers := [("c", [{ name := "LOG_LEVEL", value := "container" }])] } }

/-- Like `precedenceConfig` but with the container-tier entry removed. -/
def precedenceConfigNoContainer : Config :=
  { EnvVars :=
      { Global := [{ name := "LOG_LEVEL", value := "global" }]
        Generators := [("d", [{ name := "LOG_LEVEL", value := "deployment" }])]
        Pods := [("p", [{ name := "POD_MEMORY_LIMIT", value := "8Gi" }])]
        Containers := [("c", [])] } }

/-- Like `precedenceConfig` but with only the global-tier entry left. -/
def precedenceConfigGlobalOnly : Config :=
  { EnvVars :=
      { Global := [{ name := "LOG_LEVEL", value := "global" }]
        Generators := [("d", [])]
        Pods := [("p", [{ name := "POD_MEMORY_LIMIT", value := "8Gi" }])]
        Containers := [("c", [])] } }

/-- Witness for C1: at the concrete configurations, the resolver returns
the existing value, and after each removal the next tier's value. -/
theorem envResolutionPrecedence_witness :
    lookupEnv (GetEnvVarsForContainer precedenceConfig "d" "p" "c"
        [{ name := "LOG_LEVEL", value := "existing" }]) "LOG_LEVEL" =
      some { name := "LOG_LEVEL", value := "existing" } ∧
    lookupEnv (GetEnvVarsForContainer precedenceConfig "d" "p" "c" []) "LOG_LEVEL" =
      some { name := "LOG_LEVEL", value := "container" } ∧
    lookupEnv (GetEnvVarsForContainer precedenceConfigNoContainer "d" "p" "c" []) "LOG_LEVEL" =
      some { name := "LOG_LEVEL", value := "deployment" } ∧
    lookupEnv (GetEnvVarsForContainer precedenceConfigGlobalOnly "d" "p" "c" []) "LOG_LEVEL" =
      some { name := "LOG_LEVEL", value := "global" } :=
  ⟨(envResolutionPrecedence precedenceConfig "d" "p" "c"
      [{ name := "LOG_LEVEL", value := "existing" }] "LOG_LEVEL").1
      { name := "LOG_LEVEL", value := "existing" } (by decide),
   (envResolutionPrecedence precedenceConfig "d" "p" "c" [] "LOG_LEVEL").2.1
      { name := "LOG_LEVEL", value := "container" } (by decide) (by decide) (by decide),
   (envResolutionPrecedence precedenceConfigNoContainer "d" "p" "c" [] "LOG_LEVEL").2.2.1
      { name := "LOG_LEVEL", value := "deployment" } (by decide) (by decide) (by decide)
      (by decide) (by decide),
   (envResolutionPrecedence precedenceConfigGlobalOnly "d" "p" "c" [] "LOG_LEVEL").2.2.2
      { name := "LOG_LEVEL", value := "global" } (by decide) (by decide) (by decide)
      (by decide) (by decide) (by decide)⟩

/-- Configuration with the protected name `PATH` defined in the global,
deployment and container tiers. -/
def protectedPrecedenceConfig : Config :=
  { EnvVars :=
      { Global := [{ name := "PATH", value := "global" }]
        Generators := [("d", [{ name := "PATH", value := "deployment" }])]
        Pods := [("p", [])]
        Containers := [("c", [{ name := "PATH", value := "container" }])] } }

/-- Counterexample to C1 as stated: the name `PATH` is defined in all four
tiers (the existing entries included) and resolves to the existing value;
but after removing the existing entry, the resolver does not bind it to the
container-tier value — the protected-name filter leaves it unbound. -/
theorem envResolutionPrecedence_cex :
    lookupEnv (GetEnvVarsForContainer protectedPrecedenceConfig "d" "p" "c"
        [{ name := "PATH", value := "existing" }]) "PATH" =
      some { name := "PATH", value := "existing" } ∧
    lookupEnv (GetEnvVarsForContainer protectedPrecedenceConfig "d" "p" "c" []) "PATH" =
      none ∧
    GetEnvVarsForContainer protectedPrecedenceConfig "d" "p" "c" [] = [] := by
  refine ⟨by decide, by decide, by decide⟩

/-! ## Generators and the priority sorter -/

/-- Modelled from the spec: a generator is a named unit of work, polymorphic
over an optional ordering capability; `priority = some k` embeds a generator
implementing the optional `Priority() int` capability, `none` one that does
not. -/
structure Generator where
  name : String
  priority : Option Int := none
deriving DecidableEq, Repr

/-- Modelled from the spec: the effective priority is the declared priority
for a generator with the ordering capability and 0 for every other
generator. -/
def effectivePriority (g : Generator) : Int :=
  g.priority.getD 0

/-- Stable insertion step: the generator goes before the first element of
greater-or-equal effective priority.  In the sorter below the inserted
generator comes from earlier in the input than everything already in the
accumulator, so placing it before equal priorities keeps the input order. -/
def insertByPriority (g : Generator) : List Generator → List Generator
  | [] => [g]
  | h :: t =>
    if effectivePriority g ≤ effectivePriority h then g :: h :: t
    else h :: insertByPriority g t

/-- Modelled from the spec: `sortGeneratorsByPriority` stably sorts the
generator list ascending by effective priority. -/
def sortGeneratorsByPriority (generators : List Generator) : List Generator :=
  generators.foldr insertByPriority []

theorem mem_insertByPriority (g b : Generator) (l : List Generator) :
    b ∈ insertByPriority g l ↔ b = g ∨ b ∈ l := by
  induction l with
  | nil => simp [insertByPriority]
  | cons x xs ih =>
    by_cases hle : effectivePriority g ≤ effectivePriority x
    · rw [insertByPriority, if_pos hle]
      simp
      try tauto
    · rw [insertByPriority, if_neg hle]
      simp [ih]
      try tauto

theorem pairwise_insertByPriority (g : Generator) (l : List Generator)
    (h : l.Pairwise (fun a b => effectivePriority a ≤ effectivePriority b)) :
    (insertByPriority g l).Pairwise (fun a b => effectivePriority a ≤ effectivePriority b) := by
  induction l with
  | nil => simp [insertByPriority]
  | cons x xs ih =>
    rw [List.pairwise_cons] at h
    by_cases hle : effectivePriority g ≤ effectivePriority x
    · rw [insertByPriority, if_pos hle, List.pairwise_cons]
      refine ⟨fun b hb => ?_, List.pairwise_cons.mpr h⟩
      rcases List.mem_cons.mp hb with hb | hb
      · exact hb ▸ hle
      · exact le_trans hle (h.1 b hb)
    · rw [insertByPriority, if_neg hle, List.pairwise_cons]
      refine ⟨fun b hb => ?_, ih h.2⟩
      rcases (mem_insertByPriority g b xs).mp hb with hb | hb
      · exact hb ▸ le_of_lt (lt_of_not_le hle)
      · exact h.1 b hb

theorem perm_insertByPriority (g : Generator) (l : List Generator) :
    (insertByPriority g l).Perm (g :: l) := by
  induction l with
  | nil => exact List.Perm.refl _
  | cons x xs ih =>
    by_cases hle : effectivePriority g ≤ effectivePriority x
    · rw [insertByPriority, if_pos hle]
    · rw [insertByPriority, if_neg hle]
      exact (ih.cons x).trans (List.Perm.swap g x xs)

theorem filter_insertByPriority (g : Generator) (l : List Generator) (q : Int) :
    (insertByPriority g l).filter (fun x => effectivePriority x = q) =
      if effectivePriority g = q then
        g :: l.filter (fun x => effectivePriority x = q)
      else l.filter (fun x => effectivePriority x = q) := by
  induction l with
  | nil =>
    by_cases hq : effectivePriority g = q <;> simp [insertByPriority, hq]
  | cons x xs ih =>
    by_cases hle : effectivePriority g ≤ effectivePriority x
    · rw [insertByPriority, if_pos hle]
      by_cases hq : effectivePriority g = q <;> simp [List.filter_cons, hq]
    · rw [insertByPriority, if_neg hle]
      by_cases hq : effectivePriority g = q
      · have hx : ¬ effectivePriority x = q := fun hxq =>
          hle (le_of_eq (hq ▸ hxq ▸ rfl))
        simp [List.filter_cons, hx, ih, hq]
      · by_cases hx : effectivePriority x = q <;> simp [List.filter_cons, hx, ih, hq]

/-! ## Claim C2 -/

/-- C2: the sorter orders every generator list ascending by effective
priority (missing ordering capability counting as 0, negative priorities
legal), the sort is stable — generators of equal effective priority keep
their input order, stated as filter-invariance per priority level over the
permuted output — and the spec's four-generator example sorts as stated. -/
theorem sortGeneratorsByPrioritySpec (gs : List Generator) :
    (sortGeneratorsByPriority gs).Pairwise
        (fun a b => effectivePriority a ≤ effectivePriority b) ∧
    (∀ q : Int, (sortGeneratorsByPriority gs).filter (fun g => effectivePriority g = q) =
        gs.filter (fun g => effectivePriority g = q)) ∧
    (sortGeneratorsByPriority gs).Perm gs ∧
    sortGeneratorsByPriority
        [{ name := "gen1" }, { name := "gen2", priority := some (-1) },
         { name := "gen3", priority := some 5 }, { name := "gen4" }] =
      [{ name := "gen2", priority := some (-1) }, { name := "gen1" },
       { name := "gen4" }, { name := "gen3", priority := some 5 }] := by
  refine ⟨?_, ?_, ?_, by decide⟩
  · induction gs with
    | nil => simp [sortGeneratorsByPriority]
    | cons x xs ih => exact pairwise_insertByPriority x _ ih
  · intro q
    induction gs with
    | nil => rfl
    | cons x xs ih =>
      show (insertByPriority x (sortGeneratorsByPriority xs)).filter _ = _
      rw [filter_insertByPriority, List.filter_cons]
      by_cases hq : effectivePriority x = q <;> simp [hq, ih]
  · induction gs with
    | nil => exact List.Perm.refl _
    | cons x xs ih =>
      exact (perm_insertByPriority x (sortGeneratorsByPriority xs)).trans (ih.cons x)

/-! ## Type identity and the type-to-collection mapping -/

/-- Type identity of a cluster object (k8s `schema.GroupVersionKind`). -/
structure GroupVersionKind where
  group : String
  version : String
  kind : String
deriving DecidableEq, Repr

/-- Plural collection identity (k8s `schema.GroupVersionResource`). -/
structure GroupVersionResource where
  group : String
  version : String
  resource : String
deriving DecidableEq, Repr

/-- Lower-cases a string character by character (kept executable by the
kernel). -/
def toLowerStr (s : String) : String :=
  String.mk (s.data.map Char.toLower)

/-- Modelled from the spec: the Go body of `toGVR` is not among the
available sources (only its test is), so the mapping follows the
specification: the group and version are preserved and the kind is
translated to its plural collection identifier by lower-casing and
appending "s". -/
def toGVR (gvk : GroupVersionKind) : GroupVersionResource :=
  { group := gvk.group, version := gvk.version, resource := toLowerStr gvk.kind ++ "s" }

/-! ## Claim C6 -/

/-- C6: the type-to-collection mapping preserves group and version and
pluralizes the lower-cased kind, and on the kinds of the test table it
yields the expected collection names — a core-group kind keeps its empty
group, an apps-group kind keeps its group, and multi-word kinds pluralize
correctly. -/
theorem toGVRSpec (gvk : GroupVersionKind) :
    (toGVR gvk).group = gvk.group ∧
    (toGVR gvk).version = gvk.version ∧
    (toGVR gvk).resource = toLowerStr gvk.kind ++ "s" ∧
    toGVR { group := "", version := "v1", kind := "Pod" } =
      { group := "", version := "v1", resource := "pods" } ∧
    toGVR { group := "apps", version := "v1", kind := "Deployment" } =
      { group := "apps", version := "v1", resource := "deployments" } ∧
    toGVR { group := "rbac.authorization.k8s.io", version := "v1", kind := "ClusterRole" } =
      { group := "rbac.authorization.k8s.io", version := "v1", resource := "clusterroles" } ∧
    toGVR { group := "rbac.authorization.k8s.io", version := "v1", kind := "ClusterRoleBinding" } =
      { group := "rbac.authorization.k8s.io", version := "v1",
        resource := "clusterrolebindings" } :=
  ⟨rfl, rfl, rfl, by decide, by decide, by decide, by decide⟩

/-! ## Pod and volume data model (from the old `main.go`) -/

/-- Volume payload variants used by the repository's deployments (k8s
`v1.VolumeSource`, restricted to the variants the source constructs). -/
inductive VolumeSource where
  | emptyDir
  | secret (secretName : String) (optional : Bool) (items : List (String × String))
  | configMap (name : String)
  | persistentVolumeClaim (claimName : String)
deriving DecidableEq, Repr

/-- Embeds k8s `v1.Volume`: a named volume definition. -/
structure Volume where
  Name : String := ""
  Source : VolumeSource := VolumeSource.emptyDir
deriving DecidableEq, Repr

/-- Embeds k8s `v1.VolumeMount`. -/
structure VolumeMount where
  Name : String
  MountPath : String
  ReadOnly : Bool := false
deriving DecidableEq, Repr

/-- Embeds the parts of k8s `v1.Container` the sources manipulate. -/
structure Container where
  Name : String := ""
  Image : String := ""
  Command : List String := []
  Env : List EnvVar := []
  VolumeMounts : List VolumeMount := []
deriving DecidableEq, Repr

/-- Embeds the parts of k8s `v1.PodSpec` the sources manipulate. -/
structure PodSpec where
  Containers : List Container := []
  InitContainers : List Container := []
  Volumes : List Volume := []
deriving DecidableEq, Repr

/-- Embeds `VolumeDefAndMount` from `main.go`. -/
structure VolumeDefAndMount where
  Name : String
  MountPath : String
  ReadOnly : Bool := false
  Volume : Volume
deriving DecidableEq, Repr

/-- Embeds `VolumeDefAndMount.Apply` from `main.go`: appends one volume
mount (mount name, path, read-only flag) to the container, names the volume
after the mount and appends it to the pod spec.  Go mutates the two
arguments through pointers; the embedding returns the updated pair. -/
def VolumeDefAndMount.Apply (v : VolumeDefAndMount) (c : Container) (spec : PodSpec) :
    Container × PodSpec :=
  ({ c with VolumeMounts := c.VolumeMounts ++
      [{ Name := v.Name, MountPath := v.MountPath, ReadOnly := v.ReadOnly }] },
   { spec with Volumes := spec.Volumes ++ [{ v.Volume with Name := v.Name }] })

/-! ## Claim C7 -/

/-- C7: applying a `VolumeDefAndMount` appends exactly one volume-mount
entry to the container — carrying the mount name, mount path and read-only
flag — and exactly one volume entry to the pod spec, whose name equals the
same mount name; neither side is ever added without the other. -/
theorem volumeDefAndMountApplySpec (v : VolumeDefAndMount) (c : Container) (spec : PodSpec) :
    (v.Apply c spec).1.VolumeMounts =
      c.VolumeMounts ++ [{ Name := v.Name, MountPath := v.MountPath, ReadOnly := v.ReadOnly }] ∧
    (v.Apply c spec).2.Volumes = spec.Volumes ++ [{ v.Volume with Name := v.Name }] ∧
    (v.Apply c spec).1.VolumeMounts.length = c.VolumeMounts.length + 1 ∧
    (v.Apply c spec).2.Volumes.length = spec.Volumes.length + 1 ∧
    ((v.Apply c spec).1.VolumeMounts.getLast?).map VolumeMount.Name = some v.Name ∧
    ((v.Apply c spec).2.Volumes.getLast?).map Volume.Name = some v.Name := by
  refine ⟨rfl, rfl, by simp [VolumeDefAndMount.Apply], by simp [VolumeDefAndMount.Apply],
    ?_, ?_⟩
  · show ((c.VolumeMounts ++ [_]).getLast?).map VolumeMount.Name = _
    rw [List.getLast?_concat]
    rfl
  · show ((spec.Volumes ++ [_]).getLast?).map Volume.Name = _
    rw [List.getLast?_concat]
    rfl

/-! ## Resource descriptors, the generator constructor and the namespace generator -/

/-- Uniform embedding of an underlying cluster object: its type identity,
its own embedded name, and an opaque payload standing for the rest of the
desired state. -/
structure K8sObject where
  gvk : GroupVersionKind
  name : String
  payload : String := ""
deriving DecidableEq, Repr

/-- Embeds the `Resource` descriptor: one opaque cluster object plus
generation metadata. -/
structure Resource where
  Name : String
  Object : K8sObject
  IsUpdateable : Bool := false
  ClusterScoped : Bool := false
deriving DecidableEq, Repr

/-- Embeds the `manifestGenerator` record to the extent the claims need it:
it holds the configuration (the Go struct's cluster-client fields play no
role in the claims and are omitted). -/
structure manifestGenerator where
  Config : Config
deriving DecidableEq, Repr

/-- Modelled from the spec: the Go body of `New` is not among the available
sources (only its test is), so the constructor follows the specification:
a structurally required field — the non-empty namespace — missing at
construction time fails fast with a message identifying the field and the
offending value; otherwise the generator holding the given configuration is
returned. -/
def New (config : Config) : Except String manifestGenerator :=
  if config.Namespace = "" then
    Except.error ("Invalid namespace: " ++ config.Namespace)
  else
    Except.ok { Config := config }

/-! ## Claim C9 -/

/-- C9: constructing the manifest generator with an empty namespace fails
with the message "Invalid namespace: " followed by the offending value,
and with a non-empty namespace it succeeds, returning a generator holding
exactly the configuration passed in. -/
theorem newValidatesNamespace (config : Config) :
    (config.Namespace = "" →
      New config = Except.error ("Invalid namespace: " ++ config.Namespace)) ∧
    (config.Namespace ≠ "" →
      ∃ m, New config = Except.ok m ∧ m.Config = config) := by
  constructor
  · intro h
    simp [New, h]
  · intro h
    exact ⟨{ Config := config }, by simp [New, h], rfl⟩

/-- Witness for C9: the empty namespace yields exactly the test's error
message, and the default configuration constructs a generator holding it. -/
theorem newValidatesNamespace_witness :
    New { Namespace := "" } = Except.error "Invalid namespace: " ∧
    (∃ m, New DefaultConfig = Except.ok m ∧ m.Config = DefaultConfig) :=
  ⟨((newValidatesNamespace { Namespace := "" }).1 rfl).trans (by rfl),
   (newValidatesNamespace DefaultConfig).2 (by decide)⟩

/-- The namespace generator; the Go type carries no state. -/
structure NamespaceGenerator where
deriving DecidableEq, Repr

/-- Name of the namespace generator. -/
def NamespaceGenerator.GenName (_ : NamespaceGenerator) : String := "Namespace"

/-- The namespace generator's output is exportable. -/
def NamespaceGenerator.Exportable (_ : NamespaceGenerator) : Bool := true

/-- Modelled from the spec: the Go body of `NamespaceGenerator.Generate` is
not among the available sources (only its tests are), so the generator
follows the specification's resource-descriptor data model as pinned by the
tests: it emits, without error, exactly one cluster-scoped, non-updateable
resource descriptor wrapping a core/v1 Namespace object named by the
configuration's namespace string, with no validation of its own. -/
def NamespaceGenerator.Generate (_ : NamespaceGenerator) (mg : manifestGenerator) :
    Except String (List Resource) :=
  Except.ok
    [{ Name := mg.Config.Namespace
       Object :=
         { gvk := { group := "", version := "v1", kind := "Namespace" }
           name := mg.Config.Namespace }
       IsUpdateable := false
       ClusterScoped := true }]

/-! ## Claim C10 -/

/-- C10: for every configuration, the namespace generator returns, without
error, exactly one resource descriptor that is cluster-scoped, not
updateable, and whose name and wrapped Namespace object's name equal the
configuration's namespace string; with the empty namespace string it
produces a resource named "" instead of a validation error. -/
theorem namespaceGeneratorSpec (cfg : Config) :
    (∃ r : Resource,
      NamespaceGenerator.Generate {} { Config := cfg } = Except.ok [r] ∧
      r.Name = cfg.Namespace ∧
      r.IsUpdateable = false ∧
      r.ClusterScoped = true ∧
      r.Object.name = cfg.Namespace ∧
      r.Object.gvk = { group := "", version := "v1", kind := "Namespace" }) ∧
    (∃ r0 : Resource,
      NamespaceGenerator.Generate {} { Config := { Namespace := "" } } = Except.ok [r0] ∧
      r0.Name = "" ∧ r0.Object.name = "") := by
  refine ⟨⟨_, rfl, rfl, rfl, rfl, rfl, rfl⟩, ⟨_, rfl, rfl, rfl⟩⟩

/-! ## Reconciler (apply) -/

/-- Abstract live-cluster state the reconciler runs against: the stored
objects keyed by resource name, plus the names whose create or update call
the cluster API fails with a non-already-exists error (the fault injection
standing for the spec's "any other creation/update failure"). -/
structure Cluster where
  objects : List (String × K8sObject) := []
  createFailures : List String := []
  updateFailures : List String := []
deriving DecidableEq, Repr

/-- Live object stored under a resource name, if any. -/
def Cluster.get (cl : Cluster) (n : String) : Option K8sObject :=
  (cl.objects.find? (fun q => q.1 = n)).map (fun q => q.2)

/-- Cluster state after overwriting the object stored under a name with a
new desired state. -/
def Cluster.update (cl : Cluster) (n : String) (obj : K8sObject) : Cluster :=
  { cl with objects := cl.objects.map (fun q => if q.1 = n then (q.1, obj) else q) }

/-- Modelled from the spec: one reconciliation step — the Go apply loop body
is not among the available sources.  The step attempts a create; a name in
`createFailures` fails with an error naming the resource; a name already
present is the already-exists outcome, handled per `IsUpdateable`: update
with the new desired state when true (or fail, naming the resource, for a
name in `updateFailures`), success leaving the live object untouched when
false. -/
def applyResource (cl : Cluster) (r : Resource) : Except String Cluster :=
  match cl.get r.Name with
  | none =>
    if cl.createFailures.contains r.Name then
      Except.error ("failed to create resource " ++ r.Name)
    else
      Except.ok { cl with objects := cl.objects ++ [(r.Name, r.Object)] }
  | some _ =>
    if r.IsUpdateable then
      if cl.updateFailures.contains r.Name then
        Except.error ("failed to update resource " ++ r.Name)
      else
        Except.ok (cl.update r.Name r.Object)
    else
      Except.ok cl

/-- Modelled from the spec: the reconciler applies the ordered resource list
fully sequentially, short-circuiting on the first error. -/
def applyAll (cl : Cluster) : List Resource → Except String Cluster
  | [] => Except.ok cl
  | r :: rest =>
    match applyResource cl r with
    | Except.ok cl2 => applyAll cl2 rest
    | Except.error e => Except.error e

theorem find?_key_map (l : List (String × K8sObject)) (n : String) (obj : K8sObject) :
    (l.map (fun q => if q.1 = n then (q.1, obj) else q)).find? (fun q => q.1 = n) =
      (l.find? (fun q => q.1 = n)).map (fun q => if q.1 = n then (q.1, obj) else q) := by
  induction l with
  | nil => rfl
  | cons x xs ih =>
    by_cases hx : x.1 = n
    · simp [List.find?_cons, hx]
    · simp [List.find?_cons, hx, ih]

theorem get_update (cl : Cluster) (n : String) (obj : K8sObject) (o : K8sObject)
    (h : cl.get n = some o) : (cl.update n obj).get n = some obj := by
  unfold Cluster.get at h ⊢
  unfold Cluster.update
  simp only [find?_key_map]
  rcases hf : cl.objects.find? (fun q => q.1 = n) with _ | q
  · rw [hf] at h
    simp at h
  · have hq : q.1 = n := by
      have hq0 := List.find?_some hf
      simpa using hq0
    simp [hf, hq]

/-! ## Claim C5 -/

/-- C5: when a resource to be created already exists on the cluster, a
non-updateable resource's already-exists outcome is success leaving the
live state untouched, an updateable resource is updated to the new desired
state; and any other creation or update failure short-circuits the rest of
the apply sequence with an error naming the failed resource. -/
theorem applyAlreadyExistsSpec (cl : Cluster) (r : Resource) (rest : List Resource) :
    (∀ o, cl.get r.Name = some o → r.IsUpdateable = false →
      applyResource cl r = Except.ok cl ∧
      applyAll cl (r :: rest) = applyAll cl rest) ∧
    (∀ o, cl.get r.Name = some o → r.IsUpdateable = true →
      cl.updateFailures.contains r.Name = false →
      applyResource cl r = Except.ok (cl.update r.Name r.Object) ∧
      (cl.update r.Name r.Object).get r.Name = some r.Object) ∧
    (∀ e, applyResource cl r = Except.error e →
      applyAll cl (r :: rest) = Except.error e) ∧
    (∀ o, cl.get r.Name = some o → r.IsUpdateable = true →
      cl.updateFailures.contains r.Name = true →
      applyAll cl (r :: rest) = Except.error ("failed to update resource " ++ r.Name)) ∧
    (cl.get r.Name = none → cl.createFailures.contains r.Name = true →
      applyAll cl (r :: rest) = Except.error ("failed to create resource " ++ r.Name)) := by
  refine ⟨fun o ho hu => ?_, fun o ho hu hf => ?_, fun e he => ?_,
    fun o ho hu hf => ?_, fun ho hf => ?_⟩
  · have hstep : applyResource cl r = Except.ok cl := by
      rw [applyResource, ho]
      simp [hu]
    exact ⟨hstep, by rw [applyAll, hstep]⟩
  · refine ⟨?_, get_update cl r.Name r.Object o ho⟩
    have hf' : r.Name ∉ cl.updateFailures := by simpa using hf
    rw [applyResource, ho]
    simp [hu, hf']
  · rw [applyAll, he]
  · have hf' : r.Name ∈ cl.updateFailures := by simpa using hf
    have hstep : applyResource cl r =
        Except.error ("failed to update resource " ++ r.Name) := by
      rw [applyResource, ho]
      simp [hu, hf']
    rw [applyAll, hstep]
  · have hf' : r.Name ∈ cl.createFailures := by simpa using hf
    have hstep : applyResource cl r =
        Except.error ("failed to create resource " ++ r.Name) := by
      rw [applyResource, ho]
      simp [hf']
    rw [applyAll, hstep]

/-- Pre-existing object used by the C5 witness. -/
def liveNsObject : K8sObject :=
  { gvk := { group := "", version := "v1", kind := "Namespace" }, name := "stackrox",
    payload := "live" }

/-- Cluster state used by the C5 witness: one stored object, one name whose
create fails, one whose update fails. -/
def witnessCluster : Cluster :=
  { objects := [("stackrox", liveNsObject)]
    createFailures := ["bad-create"]
    updateFailures := ["stackrox"] }

/-- Witness for C5: at the concrete cluster state, re-creating the existing
non-updateable resource succeeds and leaves the state untouched; the
updateable variant on a cluster without the update fault stores the new
desired state; a create failure and an update failure each abort the
sequence with an error naming the resource. -/
theorem applyAlreadyExistsSpec_witness :
    applyResource witnessCluster
        { Name := "stackrox", Object := { liveNsObject with payload := "new" },
          IsUpdateable := false } = Except.ok witnessCluster ∧
    ((({ witnessCluster with updateFailures := [] } : Cluster).update "stackrox"
        { liveNsObject with payload := "new" }).get "stackrox") =
      some { liveNsObject with payload := "new" } ∧
    applyAll witnessCluster
        [{ Name := "bad-create", Object := liveNsObject, IsUpdateable := false },
         { Name := "never-reached", Object := liveNsObject, IsUpdateable := false }] =
      Except.error "failed to create resource bad-create" ∧
    applyAll witnessCluster
        [{ Name := "stackrox", Object := liveNsObject, IsUpdateable := true }] =
      Except.error "failed to update resource stackrox" :=
  ⟨((applyAlreadyExistsSpec witnessCluster
      { Name := "stackrox", Object := { liveNsObject with payload := "new" },
        IsUpdateable := false } []).1 liveNsObject (by decide) rfl).1,
   ((applyAlreadyExistsSpec { witnessCluster with updateFailures := [] }
      { Name := "stackrox", Object := { liveNsObject with payload := "new" },
        IsUpdateable := true } []).2.1 liveNsObject (by decide) rfl (by decide)).2,
   ((applyAlreadyExistsSpec witnessCluster
      { Name := "bad-create", Object := liveNsObject, IsUpdateable := false }
      [{ Name := "never-reached", Object := liveNsObject, IsUpdateable := false }]).2.2.2.2
      (by decide) (by decide)).trans (by rfl),
   ((applyAlreadyExistsSpec witnessCluster
      { Name := "stackrox", Object := liveNsObject, IsUpdateable := true }
      []).2.2.2.1 liveNsObject (by decide) rfl (by decide)).trans (by rfl)⟩

end StackRoxInstaller
